import Mathlib

/-!
Verification of the NERIS dashboard data pipeline against its natural-language
specification.

The repository is a set of Streamlit dashboards over a flat incident-report
dataset.  The analytically relevant core — data normalization, filtering,
aggregation, and weather correlation — is embedded here as executable Lean
definitions, translated from the Python sources:

* `Dashboard00` — `dashboard00.py` (3D geo dashboard: loader, date/location/
  incident cascading filters);
* `Combine` — `dashboard_combine.py` (combined multi-tab dashboard: unified
  loader `load_all_data`, density-map tab filters, daily analysis);
* `Dashboard01` — `dashboard01.py` (interactive map: `main`'s filter chain);
* `Dashboard02` — `pages/dashboard02.py` (`create_animal_rescue_chart`);
* `Dashboard04` — `dashboard04.py` (top-10 busiest days and the weather
  correlator `render_weather_correlation`).

Modelling conventions: pandas timestamps are minutes since an epoch (`Nat`);
`.dt.date` is division by 1440 (minutes per day); a `NaT`/`NaN` cell after a
coercing conversion (`errors='coerce'`) is `Option.none`; a dataframe is a
`List` of records; boolean-mask filtering is `List.filter`; `pandas`
`sort_values` over one key computes an ascending argsort and reverses the
index order when `ascending=False` — numpy's default `quicksort` leaves the
relative order of equal keys unspecified, and we model the sort with a stable
sort (`List.insertionSort`), under which the `ascending=False` reversal puts
equal keys in reversed input order.
-/

/-- Location filter mode offered by the dashboards: 'All', 'Land Only', 'Water Only'. -/
inductive LocationType where
  | all
  | landOnly
  | waterOnly
deriving DecidableEq

/-- A normalized incident record, as the dashboards see a dataframe row after
loading: `alarm` is the `alarm_datetime` in minutes since the epoch (non-null
in a normalized set), `stype` is the derived 'Specific Incident Type' column,
and the remaining fields are the categorical and numeric columns the filter
and aggregation code reads. -/
structure IncidentRecord where
  alarm : Nat
  lat : Int
  lon : Int
  onLand : Bool
  stype : String
  state : String
  city : String
  descr : String
  category : String
  animals : Nat
deriving DecidableEq

/-- The `date` column: `df['alarm_datetime'].dt.date`, one calendar day being
1440 minutes. -/
def dateOf (r : IncidentRecord) : Nat := r.alarm / 1440

namespace Dashboard00

/-- A raw CSV row of `dashboard00.py` after the coercing datetime conversion:
each load-critical column is `none` when missing, and `alarm` is additionally
`none` when `pd.to_datetime(..., errors='coerce')` failed to parse the cell. -/
structure RawRow where
  alarm : Option Nat
  state : Option String
  city : Option String
  lat : Option Int
  lon : Option Int
  itype : Option String
deriving DecidableEq

/-- A record of the set produced by `dashboard00.py`'s `load_data`: the original
columns plus the derived `on_land` flag and 'Specific Incident Type'. -/
structure LoadedRec where
  alarm : Option Nat
  state : Option String
  city : Option String
  lat : Option Int
  lon : Option Int
  itype : Option String
  onLand : Bool
  stype : String
deriving DecidableEq

/-- Embeds `load_data` of `dashboard00.py` (lines 16-43): parse
`alarm_datetime` with coercion (already reflected in `RawRow.alarm`), drop
every row with a null in `alarm_datetime`, `state`, `city`, `longitude`,
`latitude` or `incident_type`, count the dropped rows (surfaced as a warning
when positive), derive `on_land` from the coordinates via the land
classifier, and derive 'Specific Incident Type' as the last segment of the
`'||'`-split type path.  `String.splitOn` never returns an empty list, so the
final `dropna` on the derived column drops nothing, matching the source where
`.str.get(-1)` of a split of a non-null string is never null.  The `getD`
fallbacks on the coordinate options are unreachable: the filter keeps only
rows where every one of these fields is `some`. -/
def load_data (isLand : Int → Int → Bool) (rows : List RawRow) :
    List LoadedRec × Nat :=
  let kept := rows.filter fun r =>
    r.alarm.isSome && r.state.isSome && r.city.isSome &&
      r.lon.isSome && r.lat.isSome && r.itype.isSome
  let out := kept.map fun r =>
    { alarm := r.alarm, state := r.state, city := r.city,
      lat := r.lat, lon := r.lon, itype := r.itype,
      onLand := isLand (r.lat.getD 0) (r.lon.getD 0),
      stype := ((r.itype.getD "").splitOn "||").getLastD "" }
  (out, rows.length - out.length)

end Dashboard00

namespace Combine

/-- A raw CSV row of `dashboard_combine.py` after the coercing conversions in
`load_all_data`: datetime and numeric columns are `none` when missing or
unparseable, categorical columns are `none` when missing. -/
structure RawRow where
  alarm : Option Nat
  cleared : Option Nat
  lat : Option Int
  lon : Option Int
  responseTime : Option Int
  units : Option Int
  animals : Option Int
  patient : Option String
  fireEff : Option String
  category : Option String
  descr : Option String
  city : Option String
  state : Option String
  itype : Option String
deriving DecidableEq

/-- A record of the set produced by `load_all_data` of `dashboard_combine.py`:
the coerced columns, the derived `date` and `mission_duration` columns, the
`on_land` flag, the sentinel-filled categorical columns, and the derived
'Specific Incident Type'. -/
structure CombRec where
  alarm : Option Nat
  cleared : Option Nat
  date : Option Nat
  missionDuration : Option Int
  lat : Option Int
  lon : Option Int
  onLand : Bool
  patient : String
  fireEff : String
  category : String
  descr : String
  city : String
  state : String
  itype : String
  stype : String
deriving DecidableEq

/-- Embeds `load_all_data` of `dashboard_combine.py` (lines 50-82).  The
vectorized call `globe.is_land(df['latitude'], df['longitude'])` is modelled
by the `classify` argument: `some f` when the classifier call returns
normally, `none` when it raises, in which case the `except` branch assigns
`on_land = True` to every row.  Note the source drops no rows at all: every
input row is mapped to an output record, keeping `NaT`/`NaN` values where
coercion failed; the sentinel `'Unknown'` fills only the seven categorical
columns. -/
def load_all_data (classify : Option (Option Int → Option Int → Bool))
    (rows : List RawRow) : List CombRec :=
  rows.map fun r =>
    { alarm := r.alarm, cleared := r.cleared,
      date := r.alarm.map (· / 1440),
      missionDuration :=
        match r.cleared, r.alarm with
        | some c, some a => some ((c : Int) - (a : Int))
        | _, _ => none,
      lat := r.lat, lon := r.lon,
      onLand := match classify with
        | none => true
        | some f => f r.lat r.lon,
      patient := r.patient.getD "Unknown",
      fireEff := r.fireEff.getD "Unknown",
      category := r.category.getD "Unknown",
      descr := r.descr.getD "Unknown",
      city := r.city.getD "Unknown",
      state := r.state.getD "Unknown",
      itype := r.itype.getD "Unknown",
      stype := ((r.itype.getD "Unknown").splitOn "||").getLastD "" }

/-- Embeds the 'Water Only' branch of the density-map tab of
`dashboard_combine.py` (line 106): keep the rows whose `on_land` flag is
false. -/
def waterOnly (l : List CombRec) : List CombRec :=
  l.filter fun r => !r.onLand

end Combine

/-- Embeds the shared inclusive date-range mask used by `dashboard00.py`
(lines 65-67) and the density-map tab of `dashboard_combine.py` (line 104):
keep rows whose day satisfies `start_date <= alarm.dt.date <= end_date`. -/
def timeFiltered (startD endD : Nat) (l : List IncidentRecord) :
    List IncidentRecord :=
  l.filter fun r => decide (startD ≤ dateOf r) && decide (dateOf r ≤ endD)

/-- Embeds the location-type branch shared by `dashboard00.py` (lines 68-73)
and `dashboard_combine.py` (lines 105-106): 'Land Only' keeps `on_land` rows,
'Water Only' keeps the complement, 'All' is the identity. -/
def locationFiltered (loc : LocationType) (l : List IncidentRecord) :
    List IncidentRecord :=
  match loc with
  | .all => l
  | .landOnly => l.filter fun r => r.onLand
  | .waterOnly => l.filter fun r => !r.onLand

/-- Embeds the specific-incident-type selector of `dashboard00.py`
(lines 80-86): `none` models the 'All' choice (identity), `some t` keeps the
rows whose 'Specific Incident Type' equals the selection. -/
def incidentFiltered (sel : Option String) (l : List IncidentRecord) :
    List IncidentRecord :=
  match sel with
  | none => l
  | some t => l.filter fun r => r.stype == t

/-- Embeds `sorted(series.unique())`: distinct values in first-occurrence
order, then sorted ascending. -/
def sortedUnique (l : List String) : List String :=
  l.dedup.insertionSort (· ≤ ·)

namespace Dashboard00

/-- What the `dashboard00.py` module body hands to the rendering stage. The
`errorShown` flag records the `st.error` call of line 60; `result` records the
fully filtered record set the module goes on to compute and render (lines
65-101) — `none` would mean the evaluation was skipped, which the source
never does: the filter chain and the 'Filtered Incidents' metric are computed
unconditionally, even after the start/end configuration error. -/
structure Render where
  errorShown : Bool
  result : Option (List IncidentRecord)
deriving DecidableEq

/-- Embeds the filter portion of the `dashboard00.py` module body (lines
55-101): report a configuration error when the start date is after the end
date, then (unconditionally) apply the date-range, location and
specific-incident-type filters in sequence. -/
def flowRender (df : List IncidentRecord) (startD endD : Nat)
    (loc : LocationType) (sel : Option String) : Render :=
  { errorShown := decide (endD < startD),
    result := some (incidentFiltered sel (locationFiltered loc
      (timeFiltered startD endD df))) }

/-- Embeds the specific-incident-type option list of `dashboard00.py` (lines
77-80): when the upstream-filtered subset is nonempty the selectable options
are `'All'` followed by the sorted distinct 'Specific Incident Type' values
of that subset; when it is empty the widget is disabled with a 'No data'
placeholder and offers no selectable value (`none`). -/
def incidentOptions (subset : List IncidentRecord) : Option (List String) :=
  if subset.isEmpty then none
  else some ("All" :: sortedUnique (subset.map (·.stype)))

/-- Modelled from the spec: the `DynamicFilters` component consumed by
`dashboard00.py` (line 94) and `dashboard_combine.py` (line 112) comes from
the external `streamlit_dynamic_filters` package, whose code is not part of
this repository.  Per the spec's cascading contract, each geographic
dimension's option set is recomputed from the subset filtered by the other
selected dimensions; for a selected state `s` the city options are the
distinct cities occurring in the subset's records whose state is `s`. -/
def dynamicCityOptions (subset : List IncidentRecord) (s : String) :
    List String :=
  sortedUnique ((subset.filter fun r => r.state == s).map (·.city))

end Dashboard00

namespace Combine

/-- Embeds the specific-incident-type option list of the density-map tab of
`dashboard_combine.py` (line 100): `'All'` followed by the sorted distinct
'Specific Incident Type' values of the FULL loaded dataframe `df` — the
option list is computed before, and independently of, the date and location
filters of that tab. -/
def incidentOptions (df : List IncidentRecord) : List String :=
  "All" :: sortedUnique (df.map (·.stype))

end Combine

namespace Dashboard01

/-- The filter criteria collected by `render_sidebar` of `dashboard01.py`:
a start/end day pair, the selected incident descriptions (multiselect), an
optional state (`none` models 'ALL STATES'), and the location mode. -/
structure Criteria where
  startD : Nat
  endD : Nat
  descs : List String
  state : Option String
  loc : LocationType
deriving DecidableEq

/-- Embeds the filter application of `main` in `dashboard01.py` (lines
251-266): `start_ts` is midnight of the start day, `end_ts` is midnight of
the day after the end day, and the mask keeps `start_ts <= alarm < end_ts`
together with description membership; then the optional state equality and
the location mode are applied. -/
def applyFilters (df : List IncidentRecord) (c : Criteria) :
    List IncidentRecord :=
  let f1 := df.filter fun r =>
    decide (c.startD * 1440 ≤ r.alarm) && decide (r.alarm < (c.endD + 1) * 1440)
      && c.descs.contains r.descr
  let f2 := match c.state with
    | none => f1
    | some s => f1.filter fun r => r.state == s
  match c.loc with
  | .all => f2
  | .landOnly => f2.filter fun r => r.onLand
  | .waterOnly => f2.filter fun r => !r.onLand

/-- The conjunction of all predicates `applyFilters` evaluates, as one
row-level mask. -/
def fullPred (c : Criteria) (r : IncidentRecord) : Bool :=
  (decide (c.startD * 1440 ≤ r.alarm) && decide (r.alarm < (c.endD + 1) * 1440)
      && c.descs.contains r.descr)
    && (match c.state with
        | none => true
        | some s => r.state == s)
    && (match c.loc with
        | .all => true
        | .landOnly => r.onLand
        | .waterOnly => !r.onLand)

end Dashboard01

namespace Dashboard04

/-- Embeds `df.groupby('date').size()` from `render_top_days_analysis` of
`dashboard04.py` (line 94) and `render_daily_analysis_dashboard` of
`dashboard_combine.py` (line 247): one `(date, incident_count)` entry per
distinct date present, with the group keys sorted ascending (pandas
`groupby(sort=True)` default). -/
def dailyCounts (df : List IncidentRecord) : List (Nat × Nat) :=
  ((df.map dateOf).dedup.insertionSort (· ≤ ·)).map fun d =>
    (d, (df.filter fun r => dateOf r == d).length)

/-- Embeds `daily_counts.sort_values(by='incident_count', ascending=False)
.head(n)` of `dashboard04.py` (line 95, with `n = 10`): pandas sorts by an
ascending argsort of the count key and reverses the index order for
`ascending=False`; we model the argsort with a stable sort, so ties of equal
count appear in reversed input order after the reversal. -/
def topNDays (daily : List (Nat × Nat)) (n : Nat) : List (Nat × Nat) :=
  ((daily.insertionSort fun a b => a.2 ≤ b.2).reverse).take n

/-- A row of the `top_10_df` dataframe handed to the weather correlator:
a date and its incident count. -/
structure DayRow where
  date : Nat
  count : Nat
deriving DecidableEq

/-- A successfully fetched daily weather summary, as built by
`get_weather_for_day` of `dashboard04.py` (lines 82-85). -/
structure WeatherSample where
  maxTemp : Int
  precip : Int
deriving DecidableEq

/-- Mean latitude of the records of day `d`:
`df[df['date'] == row.date]['latitude'].mean()` (line 113). -/
def avgLat (df : List IncidentRecord) (d : Nat) : Rat :=
  let l := df.filter fun r => dateOf r == d
  ((l.map (·.lat)).sum : Int) / (l.length : Rat)

/-- Mean longitude of the records of day `d`:
`df[df['date'] == row.date]['longitude'].mean()` (line 114). -/
def avgLon (df : List IncidentRecord) (d : Nat) : Rat :=
  let l := df.filter fun r => dateOf r == d
  ((l.map (·.lon)).sum : Int) / (l.length : Rat)

/-- What one run of `render_weather_correlation` of `dashboard04.py` (lines
104-151) produces, per the source's observable behavior:

* `outcomes` — for each top day in order, the day row together with the
  result of its weather fetch (`none` on a failed request), exactly as the
  sequential loop of lines 111-122 obtains them; the loop never aborts early;
* `perDayErrors` — how many per-day error messages were emitted; the source
  emits none: `get_weather_for_day` catches `requests.RequestException` and
  returns `None` precisely to avoid a per-day `st.error`;
* `batchWarnings` — how many consolidated batch-failure warnings were
  emitted (the `st.warning` of line 128);
* `pairs` — the day/weather rows of `correlation_df` (lines 131-134): the
  successful samples in fetch order, concatenated positionally
  (`pd.concat(axis=1)`, modelled by `zip`) against
  `top_10_df.iloc[:-failed_requests]` — the first `len - failed` day rows —
  after which the correlation charts are rendered. -/
structure CorrelationRender where
  outcomes : List (DayRow × Option WeatherSample)
  perDayErrors : Nat
  batchWarnings : Nat
  pairs : List (DayRow × WeatherSample)
deriving DecidableEq

/-- Embeds `render_weather_correlation` of `dashboard04.py` (lines 104-134):
fetch one weather summary per top day, sequentially, at the day's mean
coordinates; count failures; if every request failed, emit one consolidated
warning and return without building any correlation rows; otherwise pair the
successful samples positionally against the first `len - failed` day rows. -/
def render_weather_correlation (df : List IncidentRecord) (top : List DayRow)
    (fetch : Rat → Rat → Nat → Option WeatherSample) : CorrelationRender :=
  let outcomes := top.map fun row =>
    (row, fetch (avgLat df row.date) (avgLon df row.date) row.date)
  let weatherData := outcomes.filterMap (·.2)
  let failed := outcomes.countP fun o => o.2.isNone
  if failed = top.length then
    { outcomes := outcomes, perDayErrors := 0, batchWarnings := 1, pairs := [] }
  else
    { outcomes := outcomes, perDayErrors := 0, batchWarnings := 0,
      pairs := (top.take (top.length - failed)).zip weatherData }

end Dashboard04

namespace Dashboard02

/-- Grand total of the summed field:
`rescues_by_category['animals_rescued'].sum()` of `pages/dashboard02.py`
(line 97), equal to the sum over all records since the per-category sums
partition the record set. -/
def totalAnimals (df : List IncidentRecord) : Nat :=
  (df.map (·.animals)).sum

/-- Embeds `create_animal_rescue_chart` of `pages/dashboard02.py` (lines
92-112): group by `incident_category` (group keys sorted ascending, one row
per distinct category), sum `animals_rescued` within each group, and derive
the percentage column as `group_sum / grand_total * 100` when the grand total
is positive and `0` for every group otherwise. -/
def categoryShares (df : List IncidentRecord) : List (String × Nat × Rat) :=
  let groups := (df.map (·.category)).dedup.insertionSort (· ≤ ·)
  let total := totalAnimals df
  groups.map fun g =>
    let s := ((df.filter fun r => r.category == g).map (·.animals)).sum
    (g, s, if 0 < total then ((s : Rat) / (total : Rat)) * 100 else 0)

end Dashboard02

/-- Embeds `df['alarm_datetime'].min()` over a (nonempty) normalized record
set, as used to seed the date widgets in `dashboard00.py` (line 55) and the
density-map tab of `dashboard_combine.py` (line 94); `0` on the empty list,
where the source would yield `NaT`. -/
def minAlarm : List IncidentRecord → Nat
  | [] => 0
  | r :: rs => rs.foldl (fun m x => min m x.alarm) r.alarm

/-- Embeds `df['alarm_datetime'].max()` over a (nonempty) normalized record
set (`dashboard00.py` line 56, `dashboard_combine.py` line 95); `0` on the
empty list, where the source would yield `NaT`. -/
def maxAlarm : List IncidentRecord → Nat
  | [] => 0
  | r :: rs => rs.foldl (fun m x => max m x.alarm) r.alarm

/-- Totality of the count key order used when sorting daily counts. -/
instance : IsTotal (Nat × Nat) (fun a b => a.2 ≤ b.2) :=
  ⟨fun a b => Nat.le_total a.2 b.2⟩

/-- Transitivity of the count key order used when sorting daily counts. -/
instance : IsTrans (Nat × Nat) (fun a b => a.2 ≤ b.2) :=
  ⟨fun _ _ _ => Nat.le_trans⟩

/-- A sample land record on day 0 ('X' incidents in Virginia). -/
def recA : IncidentRecord :=
  { alarm := 0, lat := 1, lon := 2, onLand := true, stype := "X",
    state := "VA", city := "Alpha", descr := "d1", category := "Fire",
    animals := 2 }

/-- A sample water record on day 1 ('Y' incidents in Maryland). -/
def recB : IncidentRecord :=
  { alarm := 1440, lat := 3, lon := 4, onLand := false, stype := "Y",
    state := "MD", city := "Beta", descr := "d2", category := "Medical",
    animals := 1 }

/-- The sample land record with no animals rescued. -/
def recC : IncidentRecord := { recA with animals := 0 }

/-- A two-day record set used as a concrete input: one incident per day. -/
def twoDayDf : List IncidentRecord := [recA, recB]

/-- The top-days rows corresponding to `twoDayDf`: day 0 and day 1, one
incident each. -/
def twoDayTop : List Dashboard04.DayRow := [⟨0, 1⟩, ⟨1, 1⟩]

/-- A fetch function whose request succeeds only for day 1: the day-0 fetch
fails (e.g. a rate-limited request), the day-1 fetch returns a sample. -/
def fetchDay1Only : Rat → Rat → Nat → Option Dashboard04.WeatherSample :=
  fun _ _ d => if d = 1 then some ⟨20, 5⟩ else none

/-- A fetch function whose every request fails. -/
def fetchAlwaysFails : Rat → Rat → Nat → Option Dashboard04.WeatherSample :=
  fun _ _ _ => none

/-- A raw combined-loader row whose `alarm_datetime` cell failed to parse
(`NaT` after coercion) but whose other load-relevant fields are present. -/
def rawNoAlarm : Combine.RawRow :=
  { alarm := none, cleared := none, lat := some 10, lon := some 20,
    responseTime := none, units := none, animals := none, patient := none,
    fireEff := none, category := none, descr := none,
    city := some "Springfield", state := some "VA", itype := some "f||s" }

/-- A raw combined-loader row with coordinates present, used to exercise the
classifier-failure fallback. -/
def rawWithCoords : Combine.RawRow :=
  { alarm := some 100, cleared := some 160, lat := some 5, lon := some 6,
    responseTime := some 4, units := some 1, animals := some 0,
    patient := none, fireEff := none, category := some "Fire",
    descr := some "d", city := some "Alpha", state := some "VA",
    itype := some "f||s" }

/-- A raw dashboard00 row with every load-critical field present. -/
def rawComplete : Dashboard00.RawRow :=
  { alarm := some 0, state := some "VA", city := some "Alpha",
    lat := some 1, lon := some 2, itype := some "f||s" }

/-- A raw dashboard00 row whose `alarm_datetime` failed to parse. -/
def rawBadAlarm : Dashboard00.RawRow :=
  { alarm := none, state := some "VA", city := some "Alpha",
    lat := some 1, lon := some 2, itype := some "f||s" }

/-- A sample dashboard01 filter criteria covering both sample days, both
descriptions, all states and all locations. -/
def sampleCriteria : Dashboard01.Criteria :=
  { startD := 0, endD := 1, descs := ["d1", "d2"], state := some "VA",
    loc := .landOnly }

/-- Re-filtering with the same mask is the identity on the filtered list. -/
theorem filter_self_idem {α : Type} (p : α → Bool) (l : List α) :
    (l.filter p).filter p = l.filter p := by
  rw [List.filter_filter]
  exact List.filter_congr fun x _ => Bool.and_self (p x)

/-- A fold of `min` never exceeds its initial accumulator. -/
theorem foldl_min_le_init {α : Type} (g : α → Nat) (l : List α) (a : Nat) :
    l.foldl (fun m x => min m (g x)) a ≤ a := by
  induction l generalizing a with
  | nil => exact Nat.le_refl a
  | cons x xs ih => exact Nat.le_trans (ih (min a (g x))) (Nat.min_le_left _ _)

/-- A fold of `min` is bounded by the key of every traversed element. -/
theorem foldl_min_le_mem {α : Type} (g : α → Nat) {l : List α} {x : α}
    (hx : x ∈ l) (a : Nat) : l.foldl (fun m y => min m (g y)) a ≤ g x := by
  induction l generalizing a with
  | nil => cases hx
  | cons y ys ih =>
    rcases List.mem_cons.mp hx with h | h
    · subst h
      exact Nat.le_trans (foldl_min_le_init g ys _) (Nat.min_le_right _ _)
    · exact ih h _

/-- A fold of `max` is at least its initial accumulator. -/
theorem init_le_foldl_max {α : Type} (g : α → Nat) (l : List α) (a : Nat) :
    a ≤ l.foldl (fun m x => max m (g x)) a := by
  induction l generalizing a with
  | nil => exact Nat.le_refl a
  | cons x xs ih => exact Nat.le_trans (Nat.le_max_left _ _) (ih (max a (g x)))

/-- A fold of `max` dominates the key of every traversed element. -/
theorem mem_le_foldl_max {α : Type} (g : α → Nat) {l : List α} {x : α}
    (hx : x ∈ l) (a : Nat) : g x ≤ l.foldl (fun m y => max m (g y)) a := by
  induction l generalizing a with
  | nil => cases hx
  | cons y ys ih =>
    rcases List.mem_cons.mp hx with h | h
    · subst h
      exact Nat.le_trans (Nat.le_max_right _ _) (init_le_foldl_max g ys _)
    · exact ih h _

/-- The minimum alarm time bounds every member's alarm time from below. -/
theorem minAlarm_le {l : List IncidentRecord} {r : IncidentRecord}
    (h : r ∈ l) : minAlarm l ≤ r.alarm := by
  cases l with
  | nil => cases h
  | cons x xs =>
    rcases List.mem_cons.mp h with h | h
    · subst h; exact foldl_min_le_init _ xs _
    · exact foldl_min_le_mem (·.alarm) h _

/-- The maximum alarm time bounds every member's alarm time from above. -/
theorem le_maxAlarm {l : List IncidentRecord} {r : IncidentRecord}
    (h : r ∈ l) : r.alarm ≤ maxAlarm l := by
  cases l with
  | nil => cases h
  | cons x xs =>
    rcases List.mem_cons.mp h with h | h
    · subst h; exact init_le_foldl_max _ xs _
    · exact mem_le_foldl_max (·.alarm) h _

/-- Splitting a sum along a boolean mask: the masked and complement parts add
up to the whole. -/
theorem sum_map_filter_partition {α : Type} (f : α → Nat) (p : α → Bool)
    (l : List α) :
    ((l.filter p).map f).sum + ((l.filter fun a => !p a).map f).sum
      = (l.map f).sum := by
  induction l with
  | nil => rfl
  | cons a l ih =>
    by_cases h : p a = true
    · simp only [List.filter_cons, h, if_pos, Bool.not_true, if_neg,
        Bool.false_eq_true, not_false_iff, List.map_cons, List.sum_cons]
      omega
    · have h' : p a = false := Bool.eq_false_iff.mpr h
      simp only [List.filter_cons, h', Bool.not_false, if_pos,
        Bool.false_eq_true, if_neg, not_false_iff, List.map_cons,
        List.sum_cons]
      omega

/-- Summing group sums over a duplicate-free key list that covers every
element's key yields the total sum: the groups partition the list. -/
theorem sum_map_groups {α β : Type} [DecidableEq β]
    (key : α → β) (f : α → Nat) :
    ∀ keys : List β, keys.Nodup → ∀ l : List α, (∀ a ∈ l, key a ∈ keys) →
      (keys.map fun g => ((l.filter fun a => key a == g).map f).sum).sum
        = (l.map f).sum := by
  intro keys
  induction keys with
  | nil =>
    intro _ l hcov
    have hl : l = [] :=
      List.eq_nil_iff_forall_not_mem.mpr fun a ha =>
        (List.not_mem_nil (key a) (hcov a ha)).elim
    subst hl; rfl
  | cons k ks ih =>
    intro hnd l hcov
    have hk : k ∉ ks := (List.nodup_cons.mp hnd).1
    have hnd' : ks.Nodup := (List.nodup_cons.mp hnd).2
    have hfix : ∀ g ∈ ks,
        (l.filter fun a => key a == g)
          = ((l.filter fun a => !(key a == k)).filter fun a => key a == g) := by
      intro g hg
      rw [List.filter_filter]
      refine (List.filter_congr fun a _ => ?_).symm
      by_cases h : key a = g
      · have hgk : g ≠ k := fun e => hk (e ▸ hg)
        simp [h, hgk]
      · simp [h]
    have hcov' : ∀ a ∈ l.filter fun a => !(key a == k), key a ∈ ks := by
      intro a ha
      have hmem := List.mem_filter.mp ha
      have hne : key a ≠ k := by
        intro e
        rw [e] at hmem
        simp at hmem
      rcases List.mem_cons.mp (hcov a hmem.1) with h | h
      · exact (hne h).elim
      · exact h
    calc (List.map
            (fun g => ((l.filter fun a => key a == g).map f).sum) (k :: ks)).sum
        = ((l.filter fun a => key a == k).map f).sum
            + (ks.map fun g =>
                ((l.filter fun a => key a == g).map f).sum).sum := by
          simp
      _ = ((l.filter fun a => key a == k).map f).sum
            + (ks.map fun g =>
                (((l.filter fun a => !(key a == k)).filter
                    fun a => key a == g).map f).sum).sum := by
          have hmaps :
              (ks.map fun g => ((l.filter fun a => key a == g).map f).sum)
                = ks.map fun g =>
                    (((l.filter fun a => !(key a == k)).filter
                        fun a => key a == g).map f).sum :=
            List.map_congr_left fun g hg => by rw [hfix g hg]
          rw [hmaps]
      _ = ((l.filter fun a => key a == k).map f).sum
            + ((l.filter fun a => !(key a == k)).map f).sum := by
          rw [ih hnd' _ hcov']
      _ = (l.map f).sum := sum_map_filter_partition f _ l

/-- The location filter of the empty set is empty, for every mode. -/
theorem locationFiltered_nil (loc : LocationType) :
    locationFiltered loc [] = [] := by
  cases loc <;> rfl

/-- The incident-type filter of the empty set is empty, for every selection. -/
theorem incidentFiltered_nil (sel : Option String) :
    incidentFiltered sel [] = [] := by
  cases sel <;> rfl

/-- The dashboard01 filter chain equals one filter by the conjunction of all
its predicates: each stage is a row-level mask, so the stages compose into a
single mask. -/
theorem applyFilters_eq_filter (df : List IncidentRecord)
    (c : Dashboard01.Criteria) :
    Dashboard01.applyFilters df c = df.filter (Dashboard01.fullPred c) := by
  unfold Dashboard01.applyFilters Dashboard01.fullPred
  cases hs : c.state <;> cases hl : c.loc <;>
    simp only [List.filter_filter] <;>
    refine List.filter_congr fun r _ => ?_ <;>
    simp [Bool.and_comm, Bool.and_left_comm, Bool.and_assoc]

/-- Casting a sum of naturals into the rationals equals the sum of the
casts. -/
theorem sum_map_natCast_rat {β : Type} (l : List β) (f : β → Nat) :
    (l.map fun b => ((f b : Nat) : Rat)).sum = (((l.map f).sum : Nat) : Rat) := by
  rw [Nat.cast_list_sum, List.map_map]
  rfl

/-- C7: for every record set and every filter criteria of the interactive map
dashboard (date range, description set, optional state, location mode),
applying the filters twice equals applying them once:
`applyFilters(applyFilters(R, C), C) = applyFilters(R, C)`. -/
theorem c7_applyFilters_idempotent (df : List IncidentRecord)
    (c : Dashboard01.Criteria) :
    Dashboard01.applyFilters (Dashboard01.applyFilters df c) c
      = Dashboard01.applyFilters df c := by
  rw [applyFilters_eq_filter df c, applyFilters_eq_filter, filter_self_idem]

/-- C7 witness: idempotence at a concrete record set and criteria. -/
theorem c7_applyFilters_idempotent_witness :
    Dashboard01.applyFilters (Dashboard01.applyFilters twoDayDf sampleCriteria)
        sampleCriteria
      = Dashboard01.applyFilters twoDayDf sampleCriteria :=
  c7_applyFilters_idempotent twoDayDf sampleCriteria

/-- C9: for every nonempty normalized record set, date-range filtering with
the inclusive day-granularity predicate and bounds set to the earliest and
latest alarm dates present in the set returns the whole set unchanged. -/
theorem c9_full_range_filter_identity (df : List IncidentRecord)
    (h : df ≠ []) :
    timeFiltered (minAlarm df / 1440) (maxAlarm df / 1440) df = df := by
  clear h
  apply List.filter_eq_self.mpr
  intro r hr
  have h1 : minAlarm df ≤ r.alarm := minAlarm_le hr
  have h2 : r.alarm ≤ maxAlarm df := le_maxAlarm hr
  simp only [dateOf, Bool.and_eq_true, decide_eq_true_eq]
  exact ⟨Nat.div_le_div_right h1, Nat.div_le_div_right h2⟩

/-- C9 witness: the full-range date filter over the two-day sample set is the
identity. -/
theorem c9_full_range_filter_identity_witness :
    timeFiltered (minAlarm twoDayDf / 1440) (maxAlarm twoDayDf / 1440) twoDayDf
      = twoDayDf :=
  c9_full_range_filter_identity twoDayDf (by decide)

/-- C10: if the land classifier raises while the combined loader derives
`on_land` (modelled by `classify = none`), every record of the normalized set
gets `on_land = true` regardless of its coordinates, and the 'Water Only'
filter then returns the empty set for every input. -/
theorem c10_classifier_failure_all_land (rows : List Combine.RawRow) :
    (∀ rec ∈ Combine.load_all_data none rows, rec.onLand = true)
      ∧ Combine.waterOnly (Combine.load_all_data none rows) = [] := by
  have hall : ∀ rec ∈ Combine.load_all_data none rows, rec.onLand = true := by
    intro rec hrec
    obtain ⟨r, _, rfl⟩ := List.mem_map.mp hrec
    rfl
  refine ⟨hall, ?_⟩
  apply List.filter_eq_nil_iff.mpr
  intro rec hrec
  simp [hall rec hrec]

/-- C10 witness: classifier failure over concrete rows with valid coordinates
yields `on_land` everywhere and an empty 'Water Only' view. -/
theorem c10_classifier_failure_all_land_witness :
    Combine.waterOnly (Combine.load_all_data none [rawWithCoords, rawNoAlarm])
        = []
      ∧ ∀ rec ∈ Combine.load_all_data none [rawWithCoords, rawNoAlarm],
          rec.onLand = true :=
  ⟨(c10_classifier_failure_all_land [rawWithCoords, rawNoAlarm]).2,
    (c10_classifier_failure_all_land [rawWithCoords, rawNoAlarm]).1⟩

/-- C6 counterexample: with start day 1 after end day 0 over a concrete
record set, the dashboard00 flow does report the configuration error, yet it
still evaluates the filter chain and hands a (necessarily empty) filtered
record set to the rendering stage — the claim's "no filtering computation is
performed" would require `result = none`. -/
theorem c6_counterexample_eval_after_error :
    (Dashboard00.flowRender [recA] 1 0 .all none).errorShown = true
      ∧ (Dashboard00.flowRender [recA] 1 0 .all none).result ≠ none := by
  refine ⟨rfl, ?_⟩
  intro h
  simp [Dashboard00.flowRender] at h

/-- C6 amended: when the start date is after the end date the configuration
error is reported to the caller, but the filter evaluation still proceeds —
it is not skipped — and necessarily yields the empty record set, since the
inclusive day-granularity predicate is unsatisfiable under such bounds. -/
theorem c6_amended_error_reported_filter_empty (df : List IncidentRecord)
    (startD endD : Nat) (loc : LocationType) (sel : Option String)
    (h : endD < startD) :
    (Dashboard00.flowRender df startD endD loc sel).errorShown = true
      ∧ (Dashboard00.flowRender df startD endD loc sel).result = some [] := by
  constructor
  · simp [Dashboard00.flowRender, h]
  · have ht : timeFiltered startD endD df = [] := by
      apply List.filter_eq_nil_iff.mpr
      intro r _
      simp only [Bool.and_eq_true, decide_eq_true_eq, not_and]
      omega
    simp [Dashboard00.flowRender, ht, locationFiltered_nil,
      incidentFiltered_nil]

/-- C6 amended witness: the amended behavior at a concrete record set with
start day 1 and end day 0. -/
theorem c6_amended_error_reported_filter_empty_witness :
    (Dashboard00.flowRender [recA] 1 0 .landOnly (some "X")).errorShown = true
      ∧ (Dashboard00.flowRender [recA] 1 0 .landOnly (some "X")).result
          = some [] :=
  c6_amended_error_reported_filter_empty [recA] 1 0 .landOnly (some "X")
    (by decide)

/-- C2 counterexample: a raw table with one row whose `alarm_datetime` failed
to parse. The combined loader `load_all_data` — one of the loaders the claim
covers — keeps the row in its normalized output with a null `alarm_time`
instead of excluding it, and counts nothing. -/
theorem c2_counterexample_null_alarm_kept :
    (Combine.load_all_data (some fun _ _ => true) [rawNoAlarm]).map (·.alarm)
        = [none]
      ∧ (Combine.load_all_data (some fun _ _ => true) [rawNoAlarm]).length
          = 1 := by
  exact ⟨rfl, rfl⟩

/-- C2 amended: dashboard00's loader `load_data` satisfies the claim — every
record of its normalized output has non-null `alarm_time`, `state`, `city`,
`latitude`, `longitude` and incident-type path, and the excluded rows are
counted as the difference between input and output sizes — whereas the
combined loader `load_all_data` performs no row exclusion at all, so its
output can retain records with null `alarm_time` (see the counterexample). -/
theorem c2_amended_load_data_drops_and_counts
    (isLand : Int → Int → Bool) (rows : List Dashboard00.RawRow) :
    (∀ rec ∈ (Dashboard00.load_data isLand rows).1,
        rec.alarm ≠ none ∧ rec.state ≠ none ∧ rec.city ≠ none
          ∧ rec.lat ≠ none ∧ rec.lon ≠ none ∧ rec.itype ≠ none)
      ∧ (Dashboard00.load_data isLand rows).2
          = rows.length - (Dashboard00.load_data isLand rows).1.length
      ∧ (Combine.load_all_data (some fun _ _ => true)
          [rawNoAlarm]).map (·.alarm) = [none] := by
  refine ⟨?_, rfl, rfl⟩
  intro rec hrec
  obtain ⟨r, hr, rfl⟩ := List.mem_map.mp hrec
  have hkeep := (List.mem_filter.mp hr).2
  simp only [Bool.and_eq_true, Option.isSome_iff_ne_none] at hkeep
  exact ⟨hkeep.1.1.1.1.1, hkeep.1.1.1.1.2, hkeep.1.1.1.2, hkeep.1.2,
    hkeep.1.1.2, hkeep.2⟩

/-- C2 amended witness: over a concrete raw table with one complete row and
one unparseable-alarm row, the dashboard00 loader's reported drop count and
output size, and the invariant at the surviving record. -/
theorem c2_amended_load_data_drops_and_counts_witness :
    (Dashboard00.load_data (fun _ _ => true)
        [rawComplete, rawBadAlarm]).2 = 1
      ∧ (Dashboard00.load_data (fun _ _ => true)
          [rawComplete, rawBadAlarm]).1.length = 1
      ∧ (Dashboard00.load_data (fun _ _ => true)
          [rawComplete, rawBadAlarm]).2
          = 2 - (Dashboard00.load_data (fun _ _ => true)
              [rawComplete, rawBadAlarm]).1.length := by
  refine ⟨rfl, rfl, ?_⟩
  exact (c2_amended_load_data_drops_and_counts (fun _ _ => true)
    [rawComplete, rawBadAlarm]).2.1

/-- C4 counterexample: two days with equal incident counts. The daily counts
are date-ascending `[(day 0, 1), (day 1, 1)]`, but the descending sort of
pandas reverses an ascending argsort, so the top-days table lists day 1
before day 0 — not ties broken by earliest date first, which would give
`[(0, 1), (1, 1)]`. -/
theorem c4_counterexample_tie_order :
    Dashboard04.topNDays (Dashboard04.dailyCounts twoDayDf) 10
        = [(1, 1), (0, 1)]
      ∧ Dashboard04.topNDays (Dashboard04.dailyCounts twoDayDf) 10
          ≠ [(0, 1), (1, 1)] := by
  constructor
  · decide
  · decide

/-- C4 amended: `topNDays` returns at most `n` entries — exactly
`min n (number of distinct days)`, so all available days when fewer than `n`
exist — each entry being one of the daily-count rows, sorted by incident
count descending; but ties among equal counts are not broken by earliest
date first: pandas' descending sort reverses an ascending argsort (with the
default quicksort the tie order is unspecified; under a stable sort kind,
modelled here, ties appear latest date first). -/
theorem c4_amended_topNDays_sorted_bounded (df : List IncidentRecord)
    (n : Nat) :
    (Dashboard04.topNDays (Dashboard04.dailyCounts df) n).length
        = min n (df.map dateOf).dedup.length
      ∧ List.Pairwise (fun a b : Nat × Nat => b.2 ≤ a.2)
          (Dashboard04.topNDays (Dashboard04.dailyCounts df) n)
      ∧ ∀ p ∈ Dashboard04.topNDays (Dashboard04.dailyCounts df) n,
          p ∈ Dashboard04.dailyCounts df := by
  refine ⟨?_, ?_, ?_⟩
  · simp [Dashboard04.topNDays, Dashboard04.dailyCounts,
      List.length_insertionSort]
  · have hs : List.Sorted (fun a b : Nat × Nat => a.2 ≤ b.2)
        ((Dashboard04.dailyCounts df).insertionSort
          fun a b : Nat × Nat => a.2 ≤ b.2) :=
      List.sorted_insertionSort _ _
    have hrev : List.Pairwise (fun a b : Nat × Nat => b.2 ≤ a.2)
        (((Dashboard04.dailyCounts df).insertionSort
          fun a b : Nat × Nat => a.2 ≤ b.2).reverse) :=
      List.pairwise_reverse.mpr hs
    exact hrev.sublist (List.take_sublist _ _)
  · intro p hp
    have h1 := (List.take_sublist _ _).mem hp
    rw [List.mem_reverse, List.mem_insertionSort] at h1
    exact h1

/-- C4 amended witness: at the two-day sample set with `n = 10`, the result
has `min 10 2 = 2` entries, is count-descending, and draws from the daily
counts. -/
theorem c4_amended_topNDays_sorted_bounded_witness :
    (Dashboard04.topNDays (Dashboard04.dailyCounts twoDayDf) 10).length
        = min 10 (twoDayDf.map dateOf).dedup.length
      ∧ List.Pairwise (fun a b : Nat × Nat => b.2 ≤ a.2)
          (Dashboard04.topNDays (Dashboard04.dailyCounts twoDayDf) 10)
      ∧ (1, 1) ∈ Dashboard04.dailyCounts twoDayDf :=
  ⟨(c4_amended_topNDays_sorted_bounded twoDayDf 10).1,
    (c4_amended_topNDays_sorted_bounded twoDayDf 10).2.1,
    (c4_amended_topNDays_sorted_bounded twoDayDf 10).2.2 (1, 1) (by decide)⟩

/-- C5 counterexample: in the combined dashboard's density-map tab, filtering
the two-day sample set to day 0 leaves only the type-'X' record, yet the
specific-incident-type selector still offers 'Y' — the option list is drawn
from the full unfiltered record set, so the claim's equality with the values
of the filtered subset fails. -/
theorem c5_counterexample_options_from_full_set :
    "Y" ∈ Combine.incidentOptions twoDayDf
      ∧ "Y" ∉ (locationFiltered .all (timeFiltered 0 0 twoDayDf)).map
          (·.stype) := by
  constructor
  · have hY : "Y" ∈ twoDayDf.map (·.stype) := by decide
    simp only [Combine.incidentOptions, sortedUnique, List.mem_cons,
      List.mem_insertionSort, List.mem_dedup]
    exact Or.inr hY
  · decide

/-- C5 amended: in dashboard00 the downstream option sets are recomputed from
the currently filtered subset — the specific-incident-type options offered
over a nonempty upstream-filtered subset are exactly 'All' plus the type
values occurring in that subset, and the cascading geographic component's
city options for a selected state are exactly the cities occurring in the
subset's records of that state; in the combined dashboard's density-map tab,
however, the specific-incident-type options are drawn from the full
unfiltered set (see the counterexample), while its state/city options still
cascade from the filtered subset. -/
theorem c5_amended_cascading_options (df : List IncidentRecord)
    (startD endD : Nat) (loc : LocationType) (sel : Option String)
    (v S c : String)
    (h : locationFiltered loc (timeFiltered startD endD df) ≠ []) :
    Dashboard00.incidentOptions (locationFiltered loc
        (timeFiltered startD endD df))
        = some ("All" :: sortedUnique ((locationFiltered loc
            (timeFiltered startD endD df)).map (·.stype)))
      ∧ (v ∈ sortedUnique ((locationFiltered loc
            (timeFiltered startD endD df)).map (·.stype))
          ↔ ∃ r ∈ locationFiltered loc (timeFiltered startD endD df),
              r.stype = v)
      ∧ (c ∈ Dashboard00.dynamicCityOptions
            (incidentFiltered sel (locationFiltered loc
              (timeFiltered startD endD df))) S
          ↔ ∃ r ∈ incidentFiltered sel (locationFiltered loc
              (timeFiltered startD endD df)), r.state = S ∧ r.city = c) := by
  refine ⟨?_, ?_, ?_⟩
  · simp [Dashboard00.incidentOptions, List.isEmpty_iff, h]
  · simp only [sortedUnique, List.mem_insertionSort, List.mem_dedup,
      List.mem_map]
  · simp only [Dashboard00.dynamicCityOptions, sortedUnique,
      List.mem_insertionSort, List.mem_dedup, List.mem_map,
      List.mem_filter, beq_iff_eq]
    constructor
    · rintro ⟨r, ⟨hr, hs⟩, rfl⟩; exact ⟨r, hr, hs, rfl⟩
    · rintro ⟨r, hr, hs, rfl⟩; exact ⟨r, ⟨hr, hs⟩, rfl⟩

/-- C5 amended witness: the option sets at the two-day sample set filtered to
day 0 with the land-only mode. -/
theorem c5_amended_cascading_options_witness :
    Dashboard00.incidentOptions (locationFiltered .landOnly
        (timeFiltered 0 0 twoDayDf))
        = some ("All" :: sortedUnique ((locationFiltered .landOnly
            (timeFiltered 0 0 twoDayDf)).map (·.stype)))
      ∧ ("X" ∈ sortedUnique ((locationFiltered .landOnly
            (timeFiltered 0 0 twoDayDf)).map (·.stype))
          ↔ ∃ r ∈ locationFiltered .landOnly (timeFiltered 0 0 twoDayDf),
              r.stype = "X")
      ∧ ("Alpha" ∈ Dashboard00.dynamicCityOptions
            (incidentFiltered none (locationFiltered .landOnly
              (timeFiltered 0 0 twoDayDf))) "VA"
          ↔ ∃ r ∈ incidentFiltered none (locationFiltered .landOnly
              (timeFiltered 0 0 twoDayDf)), r.state = "VA" ∧ r.city = "Alpha") :=
  c5_amended_cascading_options twoDayDf 0 0 .landOnly none "X" "VA" "Alpha"
    (by decide)

/-- C8: the category-share computation is total (no division-by-zero fault):
when the grand total of the summed field is zero every group's percentage is
0, and when the grand total is non-zero the per-group percentages sum to
exactly 100 (exact rational arithmetic stands in for the source's floating
tolerance). -/
theorem c8_category_share_percentages (df : List IncidentRecord) :
    (Dashboard02.totalAnimals df = 0 →
        ∀ p ∈ Dashboard02.categoryShares df, p.2.2 = 0)
      ∧ (Dashboard02.totalAnimals df ≠ 0 →
        ((Dashboard02.categoryShares df).map fun p => p.2.2).sum = 100) := by
  constructor
  · intro h0 p hp
    simp only [Dashboard02.categoryShares] at hp
    obtain ⟨g, _, rfl⟩ := List.mem_map.mp hp
    simp [h0]
  · intro hne
    have hpos : 0 < Dashboard02.totalAnimals df :=
      Nat.pos_of_ne_zero hne
    have hTne : ((Dashboard02.totalAnimals df : Nat) : Rat) ≠ 0 :=
      Nat.cast_ne_zero.mpr hne
    set groups := (df.map (·.category)).dedup.insertionSort (· ≤ ·) with hg
    have hnodup : groups.Nodup :=
      (List.perm_insertionSort _ _).symm.nodup (List.nodup_dedup _)
    have hcov : ∀ r ∈ df, r.category ∈ groups := by
      intro r hr
      rw [hg, List.mem_insertionSort, List.mem_dedup]
      exact List.mem_map_of_mem _ hr
    have hsum : (groups.map fun g =>
          ((df.filter fun r => r.category == g).map (·.animals)).sum).sum
        = Dashboard02.totalAnimals df :=
      sum_map_groups (·.category) (·.animals) groups hnodup df hcov
    calc ((Dashboard02.categoryShares df).map fun p => p.2.2).sum
        = (groups.map fun g =>
            ((((df.filter fun r => r.category == g).map (·.animals)).sum : Nat)
                : Rat)
              / ((Dashboard02.totalAnimals df : Nat) : Rat) * 100).sum := by
          simp only [Dashboard02.categoryShares, List.map_map, ← hg,
            if_pos hpos]
          rfl
      _ = (groups.map fun g =>
            ((((df.filter fun r => r.category == g).map (·.animals)).sum : Nat)
                : Rat)
              * (100 / ((Dashboard02.totalAnimals df : Nat) : Rat))).sum := by
          refine congrArg List.sum (List.map_congr_left fun g _ => ?_)
          rw [div_mul_eq_mul_div, mul_div_assoc]
      _ = (groups.map fun g =>
            ((((df.filter fun r => r.category == g).map (·.animals)).sum : Nat)
                : Rat)).sum
              * (100 / ((Dashboard02.totalAnimals df : Nat) : Rat)) :=
          List.sum_map_mul_right _ _ _
      _ = ((Dashboard02.totalAnimals df : Nat) : Rat)
              * (100 / ((Dashboard02.totalAnimals df : Nat) : Rat)) := by
          rw [sum_map_natCast_rat, hsum]
      _ = 100 := by
          field_simp

/-- C8 witness: the percentages over the two-day sample set (grand total 3)
sum to 100, and over the no-rescue record set (grand total 0) every group's
percentage is 0. -/
theorem c8_category_share_percentages_witness :
    Dashboard02.totalAnimals twoDayDf ≠ 0
      ∧ ((Dashboard02.categoryShares twoDayDf).map fun p => p.2.2).sum = 100
      ∧ Dashboard02.totalAnimals [recC] = 0
      ∧ ∀ p ∈ Dashboard02.categoryShares [recC], p.2.2 = 0 :=
  ⟨by decide, (c8_category_share_percentages twoDayDf).2 (by decide),
    by decide, (c8_category_share_percentages [recC]).1 (by decide)⟩

/-- C1: evaluation of the correlator at a failing input. With top days
`[day 0, day 1]` (one incident each), where the day-0 fetch fails and the
day-1 fetch succeeds with a sample, the emitted correlation table pairs the
day-1 sample with day 0 — a day whose own fetch returned nothing — because
the source truncates the LAST `failed_requests` rows of `top_10_df` and
re-zips the surviving samples by position, instead of pairing each sample
with its originating day. -/
theorem c1_misaligned_pair_at_failing_input :
    (Dashboard04.render_weather_correlation twoDayDf twoDayTop
        fetchDay1Only).pairs = [(⟨0, 1⟩, ⟨20, 5⟩)]
      ∧ fetchDay1Only (Dashboard04.avgLat twoDayDf 0)
          (Dashboard04.avgLon twoDayDf 0) 0 = none
      ∧ fetchDay1Only (Dashboard04.avgLat twoDayDf 1)
          (Dashboard04.avgLon twoDayDf 1) 1 = some ⟨20, 5⟩ :=
  ⟨rfl, rfl, rfl⟩

/-- C3: when every per-day fetch of a batch fails, the correlator emits
exactly one consolidated batch-level warning and produces no correlation
rows; when some fetch succeeds, no batch warning and no per-day error is
emitted, the sequential fetch loop still covers every top day (no abort),
and each day's recorded outcome is exactly its own fetch result — absence
for the days whose fetch failed. -/
theorem c3_batch_vs_per_day_failure (df : List IncidentRecord)
    (top : List Dashboard04.DayRow)
    (fetch : Rat → Rat → Nat → Option Dashboard04.WeatherSample) :
    ((∀ o ∈ (Dashboard04.render_weather_correlation df top fetch).outcomes,
        o.2 = none) →
      (Dashboard04.render_weather_correlation df top fetch).batchWarnings = 1
        ∧ (Dashboard04.render_weather_correlation df top fetch).pairs = []
        ∧ (Dashboard04.render_weather_correlation df top
            fetch).perDayErrors = 0)
    ∧ ((∃ o ∈ (Dashboard04.render_weather_correlation df top fetch).outcomes,
        o.2 ≠ none) →
      (Dashboard04.render_weather_correlation df top fetch).batchWarnings = 0
        ∧ (Dashboard04.render_weather_correlation df top
            fetch).perDayErrors = 0
        ∧ (Dashboard04.render_weather_correlation df top fetch).outcomes.map
            Prod.fst = top
        ∧ ∀ o ∈ (Dashboard04.render_weather_correlation df top fetch).outcomes,
            o.2 = fetch (Dashboard04.avgLat df o.1.date)
              (Dashboard04.avgLon df o.1.date) o.1.date) := by
  have houtcomes :
      (Dashboard04.render_weather_correlation df top fetch).outcomes
        = top.map fun row =>
            (row, fetch (Dashboard04.avgLat df row.date)
              (Dashboard04.avgLon df row.date) row.date) := by
    simp only [Dashboard04.render_weather_correlation]
    split <;> rfl
  constructor
  · intro hall
    have hcond : ((top.map fun row =>
          (row, fetch (Dashboard04.avgLat df row.date)
            (Dashboard04.avgLon df row.date) row.date)).countP
              fun o => o.2.isNone) = top.length := by
      rw [show top.length = (top.map fun row =>
          (row, fetch (Dashboard04.avgLat df row.date)
            (Dashboard04.avgLon df row.date) row.date)).length by
        rw [List.length_map]]
      apply List.countP_eq_length.mpr
      intro o ho
      rw [houtcomes] at hall
      simp [hall o ho]
    refine ⟨?_, ?_, ?_⟩ <;>
      · simp only [Dashboard04.render_weather_correlation]
        rw [if_pos hcond]
  · intro hex
    have hcond : ¬ (((top.map fun row =>
          (row, fetch (Dashboard04.avgLat df row.date)
            (Dashboard04.avgLon df row.date) row.date)).countP
              fun o => o.2.isNone) = top.length) := by
      intro heq
      obtain ⟨o, ho, hne⟩ := hex
      rw [houtcomes] at ho
      have hlen : top.length = (top.map fun row =>
          (row, fetch (Dashboard04.avgLat df row.date)
            (Dashboard04.avgLon df row.date) row.date)).length :=
        (List.length_map _ _).symm
      rw [hlen] at heq
      have := List.countP_eq_length.mp heq o ho
      simp only [Option.isNone_iff_eq_none] at this
      exact hne this
    refine ⟨?_, ?_, ?_, ?_⟩
    · simp only [Dashboard04.render_weather_correlation]
      rw [if_neg hcond]
    · simp only [Dashboard04.render_weather_correlation]
      rw [if_neg hcond]
    · rw [houtcomes, List.map_map]
      have hid : (Prod.fst ∘ fun row : Dashboard04.DayRow =>
          (row, fetch (Dashboard04.avgLat df row.date)
            (Dashboard04.avgLon df row.date) row.date)) = id := rfl
      rw [hid, List.map_id]
    · intro o ho
      rw [houtcomes] at ho
      obtain ⟨row, _, rfl⟩ := List.mem_map.mp ho
      rfl

/-- C3 witness: a one-day batch whose only fetch fails yields exactly one
batch warning and no correlation rows; the two-day batch with one failure
yields no batch warning and its fetch loop covers both days. -/
theorem c3_batch_vs_per_day_failure_witness :
    (Dashboard04.render_weather_correlation twoDayDf [⟨0, 1⟩]
        fetchAlwaysFails).batchWarnings = 1
      ∧ (Dashboard04.render_weather_correlation twoDayDf [⟨0, 1⟩]
          fetchAlwaysFails).pairs = []
      ∧ (Dashboard04.render_weather_correlation twoDayDf twoDayTop
          fetchDay1Only).batchWarnings = 0
      ∧ (Dashboard04.render_weather_correlation twoDayDf twoDayTop
          fetchDay1Only).outcomes.map Prod.fst = twoDayTop :=
  ⟨((c3_batch_vs_per_day_failure twoDayDf [⟨0, 1⟩] fetchAlwaysFails).1
      (by decide)).1,
    ((c3_batch_vs_per_day_failure twoDayDf [⟨0, 1⟩] fetchAlwaysFails).1
      (by decide)).2.1,
    ((c3_batch_vs_per_day_failure twoDayDf twoDayTop fetchDay1Only).2
      (by decide)).1,
    ((c3_batch_vs_per_day_failure twoDayDf twoDayTop fetchDay1Only).2
      (by decide)).2.2.1⟩
